import Mathlib

/-!
Shallow embedding of the MirageNavi relay-node control plane
(src/mirageclient-win/service_install.go, derper document): the UDP
address-discovery (STUN) responder loop, the rate-limited TLS accept path,
the certificate-lifecycle startup flow, and the signal/restart handling of
the outer run loop. Machine integers are modelled as Nat/Int with explicit
truncation where the source converts (uint16); fallible steps return Option;
the event-driven loops are modelled as step functions over explicit counter
state, folded over a list of I/O events.
-/

namespace MirageNavi

/-! ## Go IP addresses (net.IP, netip.AddrFromSlice) -/

/-- Go `net.IP`: a byte slice, length 4 (IPv4) or 16 (IPv6 or 4-in-6). -/
abbrev GoIP := List Nat

/-- Translated from the Go standard library helper `isZeros`: every byte is 0. -/
def isZeros (p : List Nat) : Bool :=
  p.all (fun b => b == 0)

/-- Translated from the Go standard library `net.IP.To4`: a 4-byte address is
returned as is; a 16-byte address is accepted when it is an IPv4-mapped IPv6
address (10 zero bytes then 0xff 0xff) and its last 4 bytes are returned;
anything else yields nil (`none`). -/
def ipTo4 (ip : GoIP) : Option GoIP :=
  if ip.length == 4 then some ip
  else if (ip.length == 16) && isZeros (ip.take 10)
          && ((ip.drop 10).take 2 == [255, 255]) then some (ip.drop 12)
  else none

/-- Translated from `netip.AddrFromSlice`: succeeds exactly on 4- or 16-byte
slices (the source at line 1009 ignores the failure flag and would use the
zero address, modelled by `Option.getD` at the use site). -/
def addrFromSlice (ip : GoIP) : Option GoIP :=
  if ip.length == 4 || ip.length == 16 then some ip else none

/-- The `*net.UDPAddr` a `ReadFromUDP` call reports: the sender's IP and port. -/
structure UDPAddr where
  ip : GoIP
  port : Nat
deriving DecidableEq

/-! ## STUN discovery packets

The packet predicates live in the dependency `tailscale.com/net/stun`, whose
code is not part of this repository's files, so they are modelled from the
spec. -/

/-- Modelled from the spec: the discovery protocol's magic prefix (the STUN
magic cookie bytes at offset 4 of the header). -/
def stunMagic : List Nat := [0x21, 0x12, 0xA4, 0x42]

/-- Modelled from the spec: `stun.Is` — a datagram looks like a discovery
packet when it is at least a full 20-byte header and carries the magic
prefix at its fixed offset. -/
def stunIs (b : List Nat) : Bool :=
  decide (20 ≤ b.length) && ((b.drop 4).take 4 == stunMagic)

/-- Modelled from the spec: `stun.ParseBindingRequest` — a well-formed
discovery request is a magic-prefixed binary packet of binding-request type
containing a 12-byte transaction id; parsing returns that transaction id and
fails on anything else. -/
def parseBindingRequest (b : List Nat) : Option (List Nat) :=
  if stunIs b && (b.take 2 == [0, 1]) then some ((b.drop 8).take 12) else none

/-- Modelled from the spec: a discovery response is a binary packet encoding
the request's transaction id plus the reflected IP address and port of the
requester, and nothing else. -/
structure STUNResponsePkt where
  txid : List Nat
  addr : GoIP
  port : Nat
deriving DecidableEq

/-- Modelled from the spec: `stun.Response` packages a transaction id and an
observed address/port pair into a response packet. -/
def stunResponse (txid : List Nat) (addr : GoIP) (port : Nat) : STUNResponsePkt :=
  ⟨txid, addr, port⟩

/-! ## The STUN responder loop (`serverSTUNListener`, lines 976-1018) -/

/-- The responder's metric counters: the four dispositions of the
`stunDisposition` label map plus the two address-family counters. -/
structure STUNCounters where
  readError : Nat
  notStun : Nat
  writeError : Nat
  success : Nat
  ipv4 : Nat
  ipv6 : Nat
deriving DecidableEq

/-- All counters start at zero. -/
def initSTUNCounters : STUNCounters := ⟨0, 0, 0, 0, 0, 0⟩

/-- One outcome of the blocking `pc.ReadFromUDP` call, together with the
environment facts the iteration consults: on a read error, whether the
owner's context is already cancelled (`ctx.Err() != nil`); on a received
datagram, its bytes, its sender, and whether the `pc.WriteTo` reply attempt
fails. -/
inductive ReadEvent where
  | readErr (ctxCancelled : Bool)
  | pkt (bytes : List Nat) (src : UDPAddr) (writeFails : Bool)
deriving DecidableEq

/-- How one loop iteration ends: `ret` leaves the loop (the function
returns); `cont` goes back to the read with the seconds slept and the reply
datagram written during the iteration, if any. -/
inductive StunStep where
  | ret
  | cont (sleepSeconds : Nat) (sent : Option (STUNResponsePkt × UDPAddr))
deriving DecidableEq

/-- True exactly when the iteration left the loop. -/
def StunStep.isRet : StunStep → Bool
  | .ret => true
  | .cont _ _ => false

/-- Translated from the body of the `for` loop of `serverSTUNListener`
(lines 983-1017): a read error returns when the context is cancelled, else
sleeps one second, counts a read error and continues; a datagram that fails
`stun.Is` or transaction-id parsing counts `not_stun` and continues; a
well-formed request counts its address family (`ua.IP.To4() != nil` picks
IPv4), builds `stun.Response(txid, AddrPortFrom(addr, uint16(ua.Port)))`
and writes it back to the sender, counting `write_error` or `success`. -/
def stunIteration (ev : ReadEvent) (c : STUNCounters) : STUNCounters × StunStep :=
  match ev with
  | .readErr cancelled =>
    if cancelled then (c, .ret)
    else ({ c with readError := c.readError + 1 }, .cont 1 none)
  | .pkt bytes src writeFails =>
    if stunIs bytes = false then
      ({ c with notStun := c.notStun + 1 }, .cont 0 none)
    else
      match parseBindingRequest bytes with
      | none => ({ c with notStun := c.notStun + 1 }, .cont 0 none)
      | some txid =>
        let c1 := if (ipTo4 src.ip).isSome
          then { c with ipv4 := c.ipv4 + 1 }
          else { c with ipv6 := c.ipv6 + 1 }
        let addr := (addrFromSlice src.ip).getD []
        let res := stunResponse txid addr (src.port % 65536)
        if writeFails then
          ({ c1 with writeError := c1.writeError + 1 }, .cont 0 (some (res, src)))
        else
          ({ c1 with success := c1.success + 1 }, .cont 0 (some (res, src)))

/-- The loop run over a list of read events: each event is one iteration;
the fold stops early when an iteration returns. -/
def stunRun : List ReadEvent → STUNCounters → STUNCounters
  | [], c => c
  | ev :: evs, c =>
    let r := stunIteration ev c
    if r.2.isRet then r.1 else stunRun evs r.1

/-- How many of the events the loop fully processes (iterations that
continue the loop rather than returning). -/
def stunProcessed : List ReadEvent → STUNCounters → Nat
  | [], _ => 0
  | ev :: evs, c =>
    let r := stunIteration ev c
    if r.2.isRet then 0 else 1 + stunProcessed evs r.1

/-- The sum of the four disposition counters (`read_error`, `not_stun`,
`write_error`, `success`). -/
def dispositionSum (c : STUNCounters) : Nat :=
  c.readError + c.notStun + c.writeError + c.success

/-! ## The rate-limited listener (`rateLimitedListener.Accept`, lines 1084-1102) -/

/-- The two expvar counters of `rateLimitedListener`. -/
structure RLCounters where
  numAccepts : Nat
  numRejects : Nat
deriving DecidableEq

/-- What one call of the underlying `l.Listener.Accept()` produced, and —
when it yielded a connection — what `l.lim.Allow()` answers for it. -/
inductive AcceptEvent where
  | underlyingErr
  | conn (allowed : Bool)
deriving DecidableEq

/-- The value `rateLimitedListener.Accept` returns to its caller. -/
inductive AcceptResult where
  | okConn
  | errUnderlying
  | errLimitedConn
deriving DecidableEq

/-- The caller-visible outcome of one `Accept` call: the returned value and
whether `cn.Close()` was called on the accepted connection. -/
structure AcceptOutcome where
  result : AcceptResult
  connClosed : Bool
deriving DecidableEq

/-- Translated from `rateLimitedListener.Accept` (lines 1084-1102): an
underlying accept error is returned unchanged; a yielded connection is
closed and `errLimitedConn` returned when no token is available (after
`numRejects.Add(1)`), else `numAccepts.Add(1)` and the connection is
returned. The function body is straight-line: every call performs exactly
one underlying accept and returns. -/
def rateLimitedAccept (ev : AcceptEvent) (c : RLCounters) : RLCounters × AcceptOutcome :=
  match ev with
  | .underlyingErr => (c, ⟨.errUnderlying, false⟩)
  | .conn allowed =>
    if allowed then
      ({ c with numAccepts := c.numAccepts + 1 }, ⟨.okConn, false⟩)
    else
      ({ c with numRejects := c.numRejects + 1 }, ⟨.errLimitedConn, true⟩)

/-- A sequence of `Accept` calls folded over their underlying events. -/
def rlRun : List AcceptEvent → RLCounters → RLCounters
  | [], c => c
  | ev :: evs, c => rlRun evs (rateLimitedAccept ev c).1

/-- How many of the calls saw the underlying listener yield a connection. -/
def countConnYield : List AcceptEvent → Nat
  | [] => 0
  | AcceptEvent.underlyingErr :: evs => countConnYield evs
  | AcceptEvent.conn _ :: evs => 1 + countConnYield evs

/-! ## DNS-challenge startup (`main`, lines 768-831) -/

/-- The concrete DNS adapters the `switch *dnsProvider` statement can select
(lines 771-790), each with the credentials it is built from. -/
inductive DNSProvider where
  | cloudflare (apiToken : String)
  | aliyun (accKeyID accKeySecret : String)
  | qcloud (secretId secretKey : String)
  | namesilo (apiToken : String)
deriving DecidableEq

/-- Translated from the `switch *dnsProvider` statement (lines 771-790): the
four known names select an adapter; the switch has no default case, so any
other name leaves the `provider` interface variable nil (`none`). -/
def selectDNSProvider (name dnsID dnsKey : String) : Option DNSProvider :=
  if name = "cloudflare" then some (.cloudflare dnsKey)
  else if name = "aliyun" then some (.aliyun dnsID dnsKey)
  else if name = "qcloud" then some (.qcloud dnsID dnsKey)
  else if name = "namesilo" then some (.namesilo dnsKey)
  else none

/-- The externally observable steps the DNS-challenge startup path takes, in
order, up to the issuance call. -/
inductive StartupStep where
  | fatalConfigError
  | zoneLookup
  | fatalZoneError
  | nilProviderPanic
  | publishRecordA
  | publishRecordAAAA
  | setDNSSolver
  | manageSync
deriving DecidableEq

/-- Translated from the DNS sub-strategy of the `letsencrypt` branch (lines
768-821): the selected provider is never validated; the flow always performs
the network zone lookup `findZoneByFQDN` first (fatal if it fails), then —
when `-set-ipv4`/`-set-ipv6` are given — calls `provider.AppendRecords`
(a nil-interface method call, hence a panic, when the provider name was
unknown), installs the DNS-01 solver and calls `magic.ManageSync`. -/
def dnsChallengeStartupSteps (providerName dnsID dnsKey setIPv4 setIPv6 : String)
    (zoneFound : Bool) : List StartupStep :=
  let provider := selectDNSProvider providerName dnsID dnsKey
  if zoneFound = false then
    [StartupStep.zoneLookup, StartupStep.fatalZoneError]
  else if setIPv4 ≠ "" && provider.isNone then
    [StartupStep.zoneLookup, StartupStep.nilProviderPanic]
  else if setIPv6 ≠ "" && provider.isNone then
    [StartupStep.zoneLookup]
      ++ (if setIPv4 ≠ "" then [StartupStep.publishRecordA] else [])
      ++ [StartupStep.nilProviderPanic]
  else
    [StartupStep.zoneLookup]
      ++ (if setIPv4 ≠ "" then [StartupStep.publishRecordA] else [])
      ++ (if setIPv6 ≠ "" then [StartupStep.publishRecordAAAA] else [])
      ++ [StartupStep.setDNSSolver, StartupStep.manageSync]

/-! ## The certificate ManageSync error check (lines 813-831) -/

/-- How the code continues after the `magic.ManageSync` call. -/
inductive CertPhaseOutcome where
  | fatalIptables
  | fatalManageSync
  | proceedToServe
deriving DecidableEq

/-- Translated from lines 820-831: `err` receives the `ManageSync` result
(line 821); when the inline TLS-ALPN sub-strategy runs on an alternate port
(`*dnsProvider == "" && myACME.AltTLSALPNPort != 443`), the same variable
`err` is then assigned the result of the iptables cleanup `cmd.Run()`
(line 824) and checked fatal (line 826) — so the check at line 829 sees the
cleanup's result, not the `ManageSync` result. -/
def postManageSyncCheck (dnsProvider : String) (altALPNPort : Nat)
    (manageSyncFails : Bool) (iptablesDeleteFails : Bool) : CertPhaseOutcome :=
  if dnsProvider = "" && altALPNPort ≠ 443 then
    if iptablesDeleteFails then CertPhaseOutcome.fatalIptables
    else if iptablesDeleteFails then CertPhaseOutcome.fatalManageSync
    else CertPhaseOutcome.proceedToServe
  else if manageSyncFails then CertPhaseOutcome.fatalManageSync
  else CertPhaseOutcome.proceedToServe

/-! ## Signals, the renewal ticker and the outer run loop (lines 879-928) -/

/-- The signals the `sigc` channel can carry: the three `signal.Notify`
registrations (SIGINT, SIGTERM, SIGQUIT) plus SIGUSR2, which the renewal
ticker goroutine sends on the same channel. -/
inductive Sig where
  | sigint
  | sigterm
  | sigquit
  | sigusr2
deriving DecidableEq

/-- What the signal handler does with one received signal: whether it closes
the shutdown channel and the HTTP server, and `some code` when it calls
`os.Exit(code)` (`none` when the handler merely returns). -/
structure SigAction where
  closesServer : Bool
  exitStatus : Option Nat
deriving DecidableEq

/-- Translated from `sigFunc` (lines 885-902): SIGUSR2 closes the shutdown
channel and the server and returns; every other signal closes them and
calls `os.Exit(0)`. -/
def sigFunc : Sig → SigAction
  | .sigusr2 => ⟨true, none⟩
  | _ => ⟨true, some 0⟩

/-- Nanoseconds in one Go `time.Hour`. -/
def nanosPerHour : Int := 3600 * 1000000000

/-- Translated from line 914: the renewal threshold `time.Hour*24*7`. -/
def renewThreshold : Int := nanosPerHour * 24 * 7

/-- Translated from line 914: the ticker body fires the restart when
`certExpires.Sub(time.Now()) < time.Hour*24*7`. -/
def renewalTickerFires (certExpires now : Int) : Bool :=
  certExpires - now < renewThreshold

/-- What `errorGroup.Wait()` can report at the end of one epoch of the outer
loop. -/
inductive GroupErr where
  | ok
  | serverClosed
  | other
deriving DecidableEq

/-- Translated from lines 924-927: after `Wait`, the process dies
(`log.Fatalf`) exactly when the error is non-nil and not
`http.ErrServerClosed`. -/
def waitIsFatal : GroupErr → Bool
  | .ok => false
  | .serverClosed => false
  | .other => true

/-- What one renewal-ticker epoch of the outer `for` loop ends in: whether
the HTTP/TLS server was closed, `some code` when the process exited, and
whether control reached the top of the outer loop again. -/
structure EpochOutcome where
  serverClosed : Bool
  exitStatus : Option Nat
  loopsBack : Bool
deriving DecidableEq

/-- Translated from the renewal ticker goroutine (lines 908-922), `sigFunc`
(lines 885-902) and the loop tail (lines 924-928), composed: when the ticker
observes the threshold it sends SIGUSR2 on `sigc`; the handler's action is
`sigFunc`; closing the server makes `ServeTLS` return `http.ErrServerClosed`,
which the loop-tail check absorbs, so the outer `for` loop iterates again.
When the ticker does not fire, the epoch keeps serving. -/
def renewalRestartCycle (certExpires now : Int) : EpochOutcome :=
  if renewalTickerFires certExpires now then
    let act := sigFunc .sigusr2
    match act.exitStatus with
    | some code => ⟨act.closesServer, some code, false⟩
    | none =>
      if waitIsFatal .serverClosed then ⟨act.closesServer, some 1, false⟩
      else ⟨act.closesServer, none, true⟩
  else ⟨false, none, false⟩

/-! ## Helper lemmas -/

/-- Parsing succeeds only on packets that pass the magic-prefix check. -/
theorem parse_some_is (b t : List Nat) (h : parseBindingRequest b = some t) :
    stunIs b = true := by
  unfold parseBindingRequest at h
  split at h
  · rename_i hc
    simp only [Bool.and_eq_true] at hc
    exact hc.1
  · cases h

/-- A packet iteration never leaves the loop. -/
theorem stunIteration_pkt_not_ret (b : List Nat) (s : UDPAddr) (w : Bool)
    (c : STUNCounters) :
    (stunIteration (ReadEvent.pkt b s w) c).2.isRet = false := by
  cases hs : stunIs b <;> cases hp : parseBindingRequest b <;> cases w <;>
    cases hi : (ipTo4 s.ip).isSome <;>
      simp [stunIteration, hs, hp, hi, StunStep.isRet]

/-- An iteration that leaves the loop leaves the counters unchanged. -/
theorem stunIteration_ret_fix (ev : ReadEvent) (c : STUNCounters)
    (h : (stunIteration ev c).2.isRet = true) :
    (stunIteration ev c).1 = c := by
  match ev with
  | .readErr true => rfl
  | .readErr false => simp [stunIteration, StunStep.isRet] at h
  | .pkt b s w => rw [stunIteration_pkt_not_ret] at h; cases h

/-- A read-error iteration with the context still live adds one to the
disposition sum. -/
theorem stunIteration_readErrFalse_sum (c : STUNCounters) :
    dispositionSum (stunIteration (ReadEvent.readErr false) c).1
      = dispositionSum c + 1 := by
  simp [stunIteration, dispositionSum]
  omega

/-- A packet iteration adds exactly one to the disposition sum. -/
theorem stunIteration_pkt_sum (b : List Nat) (s : UDPAddr) (w : Bool)
    (c : STUNCounters) :
    dispositionSum (stunIteration (ReadEvent.pkt b s w) c).1
      = dispositionSum c + 1 := by
  cases hs : stunIs b <;> cases hp : parseBindingRequest b <;> cases w <;>
    cases hi : (ipTo4 s.ip).isSome <;>
      simp [stunIteration, hs, hp, hi, dispositionSum] <;> omega

/-- An iteration that stays in the loop adds exactly one to the disposition
sum. -/
theorem stunIteration_not_ret_sum (ev : ReadEvent) (c : STUNCounters)
    (h : (stunIteration ev c).2.isRet = false) :
    dispositionSum (stunIteration ev c).1 = dispositionSum c + 1 := by
  match ev with
  | .readErr true => simp [stunIteration, StunStep.isRet] at h
  | .readErr false => exact stunIteration_readErrFalse_sum c
  | .pkt b s w => exact stunIteration_pkt_sum b s w c

/-- No single iteration decrements any of the four disposition counters. -/
theorem stunIteration_mono (ev : ReadEvent) (c : STUNCounters) :
    c.readError ≤ (stunIteration ev c).1.readError
    ∧ c.notStun ≤ (stunIteration ev c).1.notStun
    ∧ c.writeError ≤ (stunIteration ev c).1.writeError
    ∧ c.success ≤ (stunIteration ev c).1.success := by
  match ev with
  | .readErr cancelled =>
    cases cancelled <;> simp [stunIteration]
  | .pkt b s w =>
    cases hs : stunIs b <;> cases hp : parseBindingRequest b <;> cases w <;>
      cases hi : (ipTo4 s.ip).isSome <;>
        simp [stunIteration, hs, hp, hi]

/-- Over any trace, the disposition sum grows by exactly the number of
events the loop fully processes. -/
theorem stunRun_sum (evs : List ReadEvent) :
    ∀ c : STUNCounters,
      dispositionSum (stunRun evs c) = dispositionSum c + stunProcessed evs c := by
  induction evs with
  | nil => intro c; simp [stunRun, stunProcessed]
  | cons ev evs ih =>
    intro c
    cases h : (stunIteration ev c).2.isRet with
    | true =>
      simp [stunRun, stunProcessed, h, stunIteration_ret_fix ev c h]
    | false =>
      simp only [stunRun, stunProcessed, h, if_neg Bool.false_ne_true]
      rw [ih, stunIteration_not_ret_sum ev c h]
      omega

/-- Over any trace, no disposition counter ever decreases. -/
theorem stunRun_mono (evs : List ReadEvent) :
    ∀ c : STUNCounters,
      c.readError ≤ (stunRun evs c).readError
      ∧ c.notStun ≤ (stunRun evs c).notStun
      ∧ c.writeError ≤ (stunRun evs c).writeError
      ∧ c.success ≤ (stunRun evs c).success := by
  induction evs with
  | nil => intro c; simp [stunRun]
  | cons ev evs ih =>
    intro c
    have hm := stunIteration_mono ev c
    cases h : (stunIteration ev c).2.isRet with
    | true =>
      simp only [stunRun, h, if_pos rfl]
      exact hm
    | false =>
      simp only [stunRun, h, if_neg Bool.false_ne_true]
      have hr := ih (stunIteration ev c).1
      exact ⟨le_trans hm.1 hr.1, le_trans hm.2.1 hr.2.1,
             le_trans hm.2.2.1 hr.2.2.1, le_trans hm.2.2.2 hr.2.2.2⟩

/-! ## Claim theorems -/

/-- C1 (counterexample): with the token bucket empty, `Accept` on a yielded
connection increments the rejected counter and closes the connection, but it
returns the rate-limit error `errLimitedConn` to its caller instead of
looping back to the underlying accept — refuting the claim that a
rate-limit error is never returned. -/
theorem rl_accept_returns_rate_limit_error_cex :
    rateLimitedAccept (AcceptEvent.conn false) ⟨0, 0⟩
      = (⟨0, 1⟩, ⟨AcceptResult.errLimitedConn, true⟩) := rfl

/-- C1 (amended): when the underlying listener yields a connection and no
token is available, `Accept` increments the rejected counter, closes that
connection immediately and returns `errLimitedConn` to the caller (it does
not retry); when a token is available it increments the accepted counter and
returns the connection; an underlying accept error is returned unchanged
with no counter touched. -/
theorem rl_accept_reject_close_return_error :
    ∀ c : RLCounters,
      rateLimitedAccept (AcceptEvent.conn false) c
        = ({ c with numRejects := c.numRejects + 1 },
           ⟨AcceptResult.errLimitedConn, true⟩)
      ∧ rateLimitedAccept (AcceptEvent.conn true) c
        = ({ c with numAccepts := c.numAccepts + 1 },
           ⟨AcceptResult.okConn, false⟩)
      ∧ rateLimitedAccept AcceptEvent.underlyingErr c
        = (c, ⟨AcceptResult.errUnderlying, false⟩) := by
  intro c
  exact ⟨rfl, rfl, rfl⟩

/-- C2: for every well-formed discovery datagram carrying transaction id
`txid` received from sender `src`, the iteration sends exactly one response,
encoding `txid` and the observed IP and port of `src` and addressed to
`src` itself, and increments exactly one address-family counter: the IPv4
counter when `src.ip.To4()` is non-nil, else the IPv6 counter. -/
theorem stun_wellformed_reflects_sender (b txid : List Nat) (src : UDPAddr)
    (w : Bool) (c : STUNCounters)
    (hp : parseBindingRequest b = some txid)
    (hlen : src.ip.length = 4 ∨ src.ip.length = 16)
    (hport : src.port < 65536) :
    (stunIteration (ReadEvent.pkt b src w) c).2
      = StunStep.cont 0 (some (stunResponse txid src.ip src.port, src))
    ∧ (stunIteration (ReadEvent.pkt b src w) c).1.ipv4
      = (if (ipTo4 src.ip).isSome then c.ipv4 + 1 else c.ipv4)
    ∧ (stunIteration (ReadEvent.pkt b src w) c).1.ipv6
      = (if (ipTo4 src.ip).isSome then c.ipv6 else c.ipv6 + 1)
    ∧ (stunIteration (ReadEvent.pkt b src w) c).1.ipv4
      + (stunIteration (ReadEvent.pkt b src w) c).1.ipv6
      = c.ipv4 + c.ipv6 + 1 := by
  have his : stunIs b = true := parse_some_is b txid hp
  have haddr : addrFromSlice src.ip = some src.ip := by
    unfold addrFromSlice
    rcases hlen with h | h <;> simp [h]
  have hmod : src.port % 65536 = src.port := Nat.mod_eq_of_lt hport
  cases hi : (ipTo4 src.ip).isSome <;> cases w <;>
    simp [stunIteration, his, hp, haddr, hmod, hi, stunResponse] <;> omega

/-- Witness for C2: a concrete well-formed binding request from
192.168.1.7 port 33333 gets exactly one reply carrying its transaction id
and its own address, and the IPv4 counter alone is incremented. -/
theorem stun_wellformed_reflects_sender_witness :
    (stunIteration (ReadEvent.pkt
        [0, 1, 0, 0, 33, 18, 164, 66, 1, 2, 3, 4, 5, 6, 7, 8, 9, 10, 11, 12]
        ⟨[192, 168, 1, 7], 33333⟩ false) initSTUNCounters).2
      = StunStep.cont 0 (some (stunResponse [1, 2, 3, 4, 5, 6, 7, 8, 9, 10, 11, 12]
          [192, 168, 1, 7] 33333, ⟨[192, 168, 1, 7], 33333⟩))
    ∧ (stunIteration (ReadEvent.pkt
        [0, 1, 0, 0, 33, 18, 164, 66, 1, 2, 3, 4, 5, 6, 7, 8, 9, 10, 11, 12]
        ⟨[192, 168, 1, 7], 33333⟩ false) initSTUNCounters).1.ipv4
      = (if (ipTo4 (⟨[192, 168, 1, 7], 33333⟩ : UDPAddr).ip).isSome
          then initSTUNCounters.ipv4 + 1 else initSTUNCounters.ipv4)
    ∧ (stunIteration (ReadEvent.pkt
        [0, 1, 0, 0, 33, 18, 164, 66, 1, 2, 3, 4, 5, 6, 7, 8, 9, 10, 11, 12]
        ⟨[192, 168, 1, 7], 33333⟩ false) initSTUNCounters).1.ipv6
      = (if (ipTo4 (⟨[192, 168, 1, 7], 33333⟩ : UDPAddr).ip).isSome
          then initSTUNCounters.ipv6 else initSTUNCounters.ipv6 + 1)
    ∧ (stunIteration (ReadEvent.pkt
        [0, 1, 0, 0, 33, 18, 164, 66, 1, 2, 3, 4, 5, 6, 7, 8, 9, 10, 11, 12]
        ⟨[192, 168, 1, 7], 33333⟩ false) initSTUNCounters).1.ipv4
      + (stunIteration (ReadEvent.pkt
        [0, 1, 0, 0, 33, 18, 164, 66, 1, 2, 3, 4, 5, 6, 7, 8, 9, 10, 11, 12]
        ⟨[192, 168, 1, 7], 33333⟩ false) initSTUNCounters).1.ipv6
      = initSTUNCounters.ipv4 + initSTUNCounters.ipv6 + 1 :=
  stun_wellformed_reflects_sender _ _ _ _ _ rfl (Or.inl rfl) (by decide)

/-- C3: a datagram that fails the magic-prefix check or transaction-id
parsing gets no reply, increments only the `not_stun` counter by exactly 1,
and the loop continues without returning. -/
theorem stun_malformed_counts_not_stun (b : List Nat) (src : UDPAddr)
    (w : Bool) (c : STUNCounters)
    (h : parseBindingRequest b = none) :
    stunIteration (ReadEvent.pkt b src w) c
      = ({ c with notStun := c.notStun + 1 }, StunStep.cont 0 none) := by
  cases hs : stunIs b with
  | false => simp [stunIteration, hs]
  | true => simp [stunIteration, hs, h]

/-- Witness for C3: the ASCII bytes of the scenario packet
`missing-magic-prefix` are rejected at parse time and counted as
`not_stun` only, with no reply and the loop continuing. -/
theorem stun_malformed_counts_not_stun_witness :
    parseBindingRequest
        [109, 105, 115, 115, 105, 110, 103, 45, 109, 97, 103, 105, 99, 45,
         112, 114, 101, 102, 105, 120] = none
    ∧ stunIteration (ReadEvent.pkt
        [109, 105, 115, 115, 105, 110, 103, 45, 109, 97, 103, 105, 99, 45,
         112, 114, 101, 102, 105, 120] ⟨[10, 0, 0, 9], 5000⟩ false)
        initSTUNCounters
      = ({ initSTUNCounters with notStun := initSTUNCounters.notStun + 1 },
         StunStep.cont 0 none) :=
  ⟨by decide,
   stun_malformed_counts_not_stun _ ⟨[10, 0, 0, 9], 5000⟩ false
     initSTUNCounters (by decide)⟩

/-- C4 (code bug): the `switch` over the DNS provider name has no default
case, so an unknown provider name selects no adapter (`none`) and startup
does not fail fast: the flow still performs the network zone lookup,
installs a nil DNS solver and reaches the `ManageSync` network issuance
call with no fatal configuration error; with `-set-ipv4` given it instead
panics on a nil-interface method call. -/
theorem dns_unknown_provider_reaches_issuance :
    selectDNSProvider "dnspod" "id0" "key0" = none
    ∧ dnsChallengeStartupSteps "dnspod" "id0" "key0" "" "" true
      = [StartupStep.zoneLookup, StartupStep.setDNSSolver, StartupStep.manageSync]
    ∧ (dnsChallengeStartupSteps "dnspod" "id0" "key0" "" "" true).contains
        StartupStep.fatalConfigError = false
    ∧ dnsChallengeStartupSteps "dnspod" "id0" "key0" "203.0.113.5" "" true
      = [StartupStep.zoneLookup, StartupStep.nilProviderPanic] := by
  decide

/-- C5 (code bug): in the inline TLS-ALPN sub-strategy on an alternate port
(`dnsProvider` empty, ALPN port 8443), a failing `ManageSync` with a
successful iptables cleanup is not fatal — the error variable was
overwritten — and the flow proceeds to serve; on port 443 and in the
DNS sub-strategy the same `ManageSync` failure is fatal. -/
theorem managesync_error_masked_on_alt_alpn_port :
    postManageSyncCheck "" 8443 true false = CertPhaseOutcome.proceedToServe
    ∧ postManageSyncCheck "" 443 true false = CertPhaseOutcome.fatalManageSync
    ∧ postManageSyncCheck "cloudflare" 0 true false
      = CertPhaseOutcome.fatalManageSync := by
  decide

/-- C6: when the renewal ticker observes remaining validity below the 7-day
threshold it raises the restart signal (SIGUSR2); handling it closes the
HTTP/TLS server without exiting, `Wait` reports only the absorbed
`ErrServerClosed`, and control loops back to the top of the outer run
loop. -/
theorem renewal_restart_loops_without_exit (certExpires now : Int)
    (h : certExpires - now < renewThreshold) :
    renewalTickerFires certExpires now = true
    ∧ renewalRestartCycle certExpires now
      = { serverClosed := true, exitStatus := none, loopsBack := true }
    ∧ sigFunc Sig.sigusr2 = { closesServer := true, exitStatus := none }
    ∧ waitIsFatal GroupErr.serverClosed = false := by
  have hf : renewalTickerFires certExpires now = true := by
    simp [renewalTickerFires]
    exact h
  exact ⟨hf, by simp [renewalRestartCycle, hf, sigFunc, waitIsFatal], rfl, rfl⟩

/-- Witness for C6: a certificate expiring three days from now (per the
spec scenario) is under the threshold, and the epoch closes the server and
loops back with no process exit. -/
theorem renewal_restart_loops_without_exit_witness :
    ((259200000000000 : Int) - 0 < renewThreshold)
    ∧ (renewalTickerFires 259200000000000 0 = true
       ∧ renewalRestartCycle 259200000000000 0
         = { serverClosed := true, exitStatus := none, loopsBack := true }
       ∧ sigFunc Sig.sigusr2 = { closesServer := true, exitStatus := none }
       ∧ waitIsFatal GroupErr.serverClosed = false) :=
  ⟨by decide, renewal_restart_loops_without_exit 259200000000000 0 (by decide)⟩

/-- C7: every signal other than the internal restart signal SIGUSR2 makes
the handler close the server and exit the process with status 0. -/
theorem termination_signal_closes_and_exits_zero (s : Sig)
    (h : s ≠ Sig.sigusr2) :
    sigFunc s = { closesServer := true, exitStatus := some 0 } := by
  cases s
  · rfl
  · rfl
  · rfl
  · exact absurd rfl h

/-- Witness for C7: SIGINT closes the server and exits with status 0. -/
theorem termination_signal_closes_and_exits_zero_witness :
    Sig.sigint ≠ Sig.sigusr2
    ∧ sigFunc Sig.sigint = { closesServer := true, exitStatus := some 0 } :=
  ⟨by decide, termination_signal_closes_and_exits_zero Sig.sigint (by decide)⟩

/-- C8 (counterexample): one `Accept` call in which the underlying listener
fails is one accept attempt, yet it increments neither counter, so accepted
plus rejected (0) does not sum to the number of attempts (1). -/
theorem rl_counters_vs_attempts_cex :
    (rlRun [AcceptEvent.underlyingErr] ⟨0, 0⟩).numAccepts
      + (rlRun [AcceptEvent.underlyingErr] ⟨0, 0⟩).numRejects = 0
    ∧ [AcceptEvent.underlyingErr].length = 1 := by
  decide

/-- C8 (amended): over every sequence of `Accept` calls, the accepted
counter plus the rejected counter grows by exactly the number of calls in
which the underlying listener yielded a connection (calls in which the
underlying accept itself failed touch neither counter). -/
theorem rl_counters_sum_yielded (evs : List AcceptEvent) :
    ∀ c : RLCounters,
      (rlRun evs c).numAccepts + (rlRun evs c).numRejects
        = c.numAccepts + c.numRejects + countConnYield evs := by
  induction evs with
  | nil => intro c; simp [rlRun, countConnYield]
  | cons ev evs ih =>
    intro c
    cases ev with
    | underlyingErr =>
      simp only [rlRun, rateLimitedAccept, countConnYield]
      exact ih c
    | conn allowed =>
      cases allowed <;>
        simp [rlRun, rateLimitedAccept, countConnYield, ih] <;> omega

/-- C9: a transient read error while the owner has not cancelled increments
the read-error counter by exactly 1, sleeps the fixed one-second backoff and
continues the loop; and the loop returns only on a read error observed after
cancellation. -/
theorem stun_read_error_backoff_and_continue :
    (∀ c : STUNCounters,
      stunIteration (ReadEvent.readErr false) c
        = ({ c with readError := c.readError + 1 }, StunStep.cont 1 none))
    ∧ (∀ (ev : ReadEvent) (c : STUNCounters),
        (stunIteration ev c).2.isRet = true → ev = ReadEvent.readErr true) := by
  constructor
  · intro c
    rfl
  · intro ev c h
    match ev with
    | .readErr true => rfl
    | .readErr false => simp [stunIteration, StunStep.isRet] at h
    | .pkt b s w => rw [stunIteration_pkt_not_ret] at h; cases h

/-- C10: every iteration the loop fully processes (one that continues
rather than returning) increments exactly one of the four disposition
counters by exactly 1 — the disposition sum grows by 1 and no disposition
counter decreases — and over any trace the disposition sum equals its
initial value plus the number of read attempts processed. -/
theorem stun_disposition_exactly_one_per_attempt :
    (∀ c : STUNCounters,
      dispositionSum (stunIteration (ReadEvent.readErr false) c).1
        = dispositionSum c + 1)
    ∧ (∀ (b : List Nat) (s : UDPAddr) (w : Bool) (c : STUNCounters),
        dispositionSum (stunIteration (ReadEvent.pkt b s w) c).1
          = dispositionSum c + 1)
    ∧ (∀ (ev : ReadEvent) (c : STUNCounters),
        c.readError ≤ (stunIteration ev c).1.readError
        ∧ c.notStun ≤ (stunIteration ev c).1.notStun
        ∧ c.writeError ≤ (stunIteration ev c).1.writeError
        ∧ c.success ≤ (stunIteration ev c).1.success)
    ∧ (∀ (evs : List ReadEvent) (c : STUNCounters),
        dispositionSum (stunRun evs c) = dispositionSum c + stunProcessed evs c)
    ∧ (∀ (evs : List ReadEvent) (c : STUNCounters),
        c.readError ≤ (stunRun evs c).readError
        ∧ c.notStun ≤ (stunRun evs c).notStun
        ∧ c.writeError ≤ (stunRun evs c).writeError
        ∧ c.success ≤ (stunRun evs c).success) :=
  ⟨stunIteration_readErrFalse_sum,
   stunIteration_pkt_sum,
   stunIteration_mono,
   fun evs c => stunRun_sum evs c,
   fun evs c => stunRun_mono evs c⟩

end MirageNavi
